import Mathlib

/-!
Verification of the Notion-DB GraphQL backend (multi-tenant schema-flexible
record store).  The definitions below are a shallow embedding of the GraphQL
resolvers (`src/graphql/resolvers.js`) over the Mongoose data model
(`src/models/*.js`).  MongoDB documents become Lean structures, collections
become lists inside an explicit `AppState`, and each resolver becomes a pure
function: queries return `Except Err result`, mutations return the post-state
paired with the outcome (writes performed before a throw persist, exactly as
awaited Mongo writes do).
-/

set_option autoImplicit false

namespace NotionDB

/-- A stored value.  The Mongoose schema declares `values : Map of Mixed`;
we model the Mixed payloads that actually flow through the API (GraphQL JSON
leaves) as a small tagged union.  MongoDB `$regex` matches only string
values, which the `str` tag lets us express. -/
inductive Value where
  | str (s : String)
  | num (n : Int)
  | bool (b : Bool)
deriving DecidableEq, Repr

/-- A record value mapping, i.e. the Mongoose `Map` of field name to value.
Association list in insertion order, mirroring JS `Map` semantics. -/
abbrev VMap := List (String × Value)

/-- `m.get(k)` on a JS/Mongoose Map (first matching key; keys are unique in
a real Map, and `mapSet` preserves that). -/
def mapGet (m : VMap) (k : String) : Option Value :=
  (m.find? (fun kv => decide (kv.1 = k))).map (fun kv => kv.2)

/-- `m.set(k, v)` on a JS/Mongoose Map: overwrite in place when the key is
present, append otherwise. -/
def mapSet (m : VMap) (k : String) (v : Value) : VMap :=
  if m.any (fun kv => decide (kv.1 = k)) then
    m.map (fun kv => if kv.1 = k then (k, v) else kv)
  else m ++ [(k, v)]

/-- A field definition subdocument of `databaseDefinition.js` (`fields`
array entries).  `fid` is the Mongoose-assigned subdocument `_id`;
`ftype` is the schema's `type` (one of "text", "number", "date",
"boolean", "select", "multi-select", "relation"). -/
structure Field where
  fid : Nat
  name : String
  ftype : String
  options : List String
deriving DecidableEq, Repr

/-- The GraphQL `FieldInput` used by createField/updateField (no id). -/
structure FieldInput where
  name : String
  ftype : String
  options : List String
deriving DecidableEq, Repr

/-- A `DatabaseDefinition` document (`databaseDefinition.js`). -/
structure DatabaseDef where
  id : Nat
  tenantId : Nat
  name : String
  fields : List Field
  isDeleted : Bool
deriving DecidableEq, Repr

/-- A `Record` document (`Record.js`). -/
structure RecordDoc where
  id : Nat
  tenantId : Nat
  databaseId : Nat
  values : VMap
  isDeleted : Bool
  createdAt : Nat
  updatedAt : Nat
deriving DecidableEq, Repr

/-- An `ActivityLog` document (`ActivityLog.js`).  The free-form `details`
payload is irrelevant to the claims and omitted. -/
structure LogEntry where
  tenantId : Nat
  userId : Nat
  action : String
  createdAt : Nat
deriving DecidableEq, Repr

/-- User roles (`User.js`: enum Admin / Editor / Viewer). -/
inductive Role where
  | Admin
  | Editor
  | Viewer
deriving DecidableEq, Repr

/-- The authenticated principal attached to the Apollo context
(`context.user`), carrying the fields the resolvers read. -/
structure Principal where
  userId : Nat
  tenantId : Nat
  role : Role
deriving DecidableEq, Repr

/-- Resolver context: `none` models an anonymous context (missing or
invalid token), `some u` an authenticated user. -/
abbrev Ctx := Option Principal

/-- The backing MongoDB state: the three collections the claims touch,
fresh-id counters for Mongoose-assigned `_id`s, and a model clock for
`Date.now()`. -/
structure AppState where
  databases : List DatabaseDef
  records : List RecordDoc
  logs : List LogEntry
  nextDatabaseId : Nat
  nextFieldId : Nat
  nextRecordId : Nat
  now : Nat
deriving DecidableEq, Repr

/-- Resolver outcomes that terminate with a throw.  Constructors track both
the JS error class and, where one class is used with several meanings, the
meaning of the thrown message:
* `authenticationError` — `AuthenticationError` ("You must be logged in");
* `forbiddenRole` — `ForbiddenError` for a role failure ("You are not authorized...");
* `forbiddenNotFound` — `ForbiddenError` with a not-found message
  ("Database not found or you don't have permission", thrown by
  createField/updateField/deleteField/createRecord);
* `userInputNotFound` — `UserInputError` with a not-found message
  ("Record/Field not found...");
* `userInputConflict` — `UserInputError` for a duplicate name (explicit
  check or translated Mongo E11000);
* `userInputInvalid` — `UserInputError` for blank/invalid input;
* `errorNotFound` — plain `Error` with a not-found message (database
  query, updateDatabase, deleteDatabase);
* `errorInternal` — any other plain `Error` / propagated failure. -/
inductive Err where
  | authenticationError
  | forbiddenRole
  | forbiddenNotFound
  | userInputNotFound
  | userInputConflict
  | userInputInvalid
  | errorNotFound
  | errorInternal
deriving DecidableEq, Repr

/-- The spec's `NotFound` taxonomy entry covers the three not-found throw
shapes the source uses. -/
def isNotFoundOutcome : Err → Bool
  | Err.forbiddenNotFound => true
  | Err.userInputNotFound => true
  | Err.errorNotFound => true
  | _ => false

/-- Whether an outcome is a success. -/
def isOkE {α : Type} : Except Err α → Bool
  | Except.ok _ => true
  | Except.error _ => false

/-- ASCII lower-casing of one character (the case MongoDB's `i` flag and
JS `toLowerCase` share on the ASCII range the API uses). -/
def charToLower (c : Char) : Char :=
  if 65 ≤ c.toNat ∧ c.toNat ≤ 90 then Char.ofNat (c.toNat + 32) else c

/-- Lower-case a string (JS `toLowerCase` on ASCII). -/
def toLowerStr (s : String) : String :=
  String.mk (s.data.map charToLower)

/-- Whitespace for trimming (JS `trim`). -/
def isWS (c : Char) : Bool :=
  decide (c = ' ' ∨ c = '\t' ∨ c = '\n' ∨ c = '\r')

/-- Drop leading whitespace from a character list. -/
def dropWS : List Char → List Char
  | [] => []
  | c :: cs => if isWS c then dropWS cs else c :: cs

/-- JS `String.prototype.trim`: strip leading and trailing whitespace. -/
def strTrim (s : String) : String :=
  String.mk (dropWS (dropWS s.data).reverse).reverse

/-- `pat` is a prefix of `hay` (character lists). -/
def prefixCL : List Char → List Char → Bool
  | [], _ => true
  | _ :: _, [] => false
  | c :: cs, d :: ds => decide (c = d) && prefixCL cs ds

/-- `pat` occurs contiguously somewhere in `hay` (character lists). -/
def containsCL (pat : List Char) : List Char → Bool
  | [] => prefixCL pat []
  | c :: rest => prefixCL pat (c :: rest) || containsCL pat rest

/-- Substring test: `pat` occurs contiguously somewhere in `hay`. -/
def strContains (hay pat : String) : Bool :=
  containsCL pat.data hay.data

/-- Case-insensitive substring containment. -/
def ciContains (hay pat : String) : Bool :=
  strContains (toLowerStr hay) (toLowerStr pat)

/-- Update the first element satisfying `p` (the one `List.find?` returns),
leaving the rest unchanged — the effect of Mongoose `findOneAndUpdate` /
`document.save()` on the backing list. -/
def updateFirst {α : Type} (p : α → Bool) (f : α → α) : List α → List α
  | [] => []
  | x :: xs => if p x then f x :: xs else x :: updateFirst p f xs

/-- Stable insertion of `x` into `l` under `le` (used by `sortBy`). -/
def insertLe {α : Type} (le : α → α → Bool) (x : α) : List α → List α
  | [] => [x]
  | y :: ys => if le x y then x :: y :: ys else y :: insertLe le x ys

/-- Stable sort, modelling the backing store's `$sort` / `.sort()` stage. -/
def sortBy {α : Type} (le : α → α → Bool) : List α → List α
  | [] => []
  | x :: xs => insertLe le x (sortBy le xs)

/-- A total order on optional values used by the sort stage; rank models
BSON type ordering (missing < numbers < strings < booleans), with the
natural order inside each type. -/
def valueLeB : Option Value → Option Value → Bool := fun a b =>
  let rank : Option Value → Nat
    | none => 0
    | some (Value.num _) => 1
    | some (Value.str _) => 2
    | some (Value.bool _) => 3
  if rank a ≠ rank b then rank a < rank b
  else
    match a, b with
    | some (Value.num x), some (Value.num y) => x ≤ y
    | some (Value.str x), some (Value.str y) => x < y ∨ x = y
    | some (Value.bool x), some (Value.bool y) => !x || y
    | _, _ => true

/-! ## The records query pipeline (`resolvers.Query.records`) -/

/-- Pipeline stage 1 (lines 70-76): the mandatory `$match` on
`databaseId`, the caller's `tenantId`, and `isDeleted: false`. -/
def baseMatch (tenantId databaseId : Nat) (recs : List RecordDoc) : List RecordDoc :=
  recs.filter (fun r =>
    decide (r.databaseId = databaseId ∧ r.tenantId = tenantId ∧ r.isDeleted = false))

/-- Names of the fields of type "text" of a database definition
(lines 84-86). -/
def textFieldNames (db : DatabaseDef) : List String :=
  (db.fields.filter (fun f => decide (f.ftype = "text"))).map (fun f => f.name)

/-- One `$regex`/`$options: "i"` condition on `values.<field>` (line 91).
MongoDB `$regex` matches only string values; for a pattern free of regex
metacharacters (the shape the API intends) an unanchored case-insensitive
regex is exactly case-insensitive substring containment, which is how we
give the stage executable semantics. -/
def valueMatchesRegexCI (v : Option Value) (pat : String) : Bool :=
  match v with
  | some (Value.str sv) => ciContains sv pat
  | _ => false

/-- Pipeline stage 2 (lines 80-97): keyword search.  The database
definition is resolved with `findById(databaseId)` — by id alone, with no
tenant filter.  When the definition is missing, or it has no text fields,
no `$match` stage is pushed. -/
def searchStage (s : AppState) (databaseId : Nat) (search : Option String)
    (recs : List RecordDoc) : List RecordDoc :=
  match search with
  | none => recs
  | some term =>
    match s.databases.find? (fun d => decide (d.id = databaseId)) with
    | none => recs
    | some db =>
      let tf := textFieldNames db
      if tf.isEmpty then recs
      else recs.filter (fun r => tf.any (fun fn => valueMatchesRegexCI (mapGet r.values fn) term))

/-- Pipeline stage 3 (lines 103-109): the user filter, an extra `$match`
with one condition per entry under `values.<field>`.  Conditions are
opaque pass-through to MongoDB; we model the literal-value case (equality
on the stored value), the only shape the claims exercise. -/
def filterStage (filt : Option (List (String × Value))) (recs : List RecordDoc) :
    List RecordDoc :=
  match filt with
  | none => recs
  | some conds =>
    recs.filter (fun r => conds.all (fun c => decide (mapGet r.values c.1 = some c.2)))

/-- Pipeline stage 4 (lines 111-118): `$sort` on `values.<sort.field>`,
descending exactly when `sort.order.toLowerCase() == "desc"`. -/
def sortStage (srt : Option (String × String)) (recs : List RecordDoc) : List RecordDoc :=
  match srt with
  | none => recs
  | some fo =>
    let desc := toLowerStr fo.2 = "desc"
    sortBy (fun a b =>
      if desc then valueLeB (mapGet b.values fo.1) (mapGet a.values fo.1)
      else valueLeB (mapGet a.values fo.1) (mapGet b.values fo.1)) recs

/-- `page && page > 0 ? page : 1` (line 123; line 182 for activity logs):
unset, zero (falsy) and negative pages all default to 1. -/
def pageNumOf (page : Option Int) : Int :=
  match page with
  | some p => if p > 0 then p else 1
  | none => 1

/-- `limit && limit > 0 ? limit : dflt` (line 124 with default 20;
line 183 with default 25). -/
def limitNumOf (dflt : Int) (limit : Option Int) : Int :=
  match limit with
  | some l => if l > 0 then l else dflt
  | none => dflt

/-- Pipeline stages 5-6 (lines 125-131 / 184-190): `$skip` of
`(pageNum - 1) * limitNum` then `$limit` of `limitNum`. -/
def paginate {α : Type} (page limit : Option Int) (dflt : Int) (l : List α) : List α :=
  let pageNum := pageNumOf page
  let limitNum := limitNumOf dflt limit
  let skipNum := (pageNum - 1) * limitNum
  (l.drop skipNum.toNat).take limitNum.toNat

/-! ## Query resolvers -/

/-- `Query.databases` (lines 16-30): all live databases of the caller's
tenant. -/
def databasesQ (ctx : Ctx) (s : AppState) : Except Err (List DatabaseDef) :=
  match ctx with
  | none => Except.error Err.authenticationError
  | some u =>
    Except.ok (s.databases.filter (fun d =>
      decide (d.tenantId = u.tenantId ∧ d.isDeleted = false)))

/-- `Query.database` (lines 33-54): `findOne` on `{_id, tenantId,
isDeleted: false}`; throws a plain `Error` ("Database not found or you
don't have permission to view it") when nothing matches. -/
def databaseQ (ctx : Ctx) (id : Nat) (s : AppState) : Except Err DatabaseDef :=
  match ctx with
  | none => Except.error Err.authenticationError
  | some u =>
    match s.databases.find? (fun d =>
        decide (d.id = id ∧ d.tenantId = u.tenantId ∧ d.isDeleted = false)) with
    | none => Except.error Err.errorNotFound
    | some d => Except.ok d

/-- `Query.records` (lines 56-148): the aggregation pipeline — mandatory
tenant/database match, then search, filter, sort, skip, limit.  Result
formatting flattens each Map into {field, value} pairs; our `VMap` already
is that pair list, so the formatted result is the matched documents. -/
def recordsQ (ctx : Ctx) (databaseId : Nat) (filt : Option (List (String × Value)))
    (srt : Option (String × String)) (page limit : Option Int) (search : Option String)
    (s : AppState) : Except Err (List RecordDoc) :=
  match ctx with
  | none => Except.error Err.authenticationError
  | some u =>
    Except.ok (paginate page limit 20
      (sortStage srt
        (filterStage filt
          (searchStage s databaseId search
            (baseMatch u.tenantId databaseId s.records)))))

/-- `Query.record` (lines 149-175): `findOne` on `{_id, tenantId}` (no
soft-delete filter); returns `null` — modelled as `ok none` — when nothing
matches. -/
def recordQ (ctx : Ctx) (id : Nat) (s : AppState) : Except Err (Option RecordDoc) :=
  match ctx with
  | none => Except.error Err.authenticationError
  | some u =>
    Except.ok (s.records.find? (fun r => decide (r.id = id ∧ r.tenantId = u.tenantId)))

/-- `Query.activityLogs` (lines 177-193): tenant-filtered, sorted by
`createdAt` descending, then skip/limit with default limit 25. -/
def activityLogsQ (ctx : Ctx) (limit page : Option Int) (s : AppState) :
    Except Err (List LogEntry) :=
  match ctx with
  | none => Except.error Err.authenticationError
  | some u =>
    Except.ok (paginate page limit 25
      (sortBy (fun a b => decide (b.createdAt ≤ a.createdAt))
        (s.logs.filter (fun l => decide (l.tenantId = u.tenantId)))))

/-! ## Mutation resolvers

Mutations return `AppState × Except Err α`: the state reflects every write
performed before the point of return, because the source `await`s each write
in turn — a later throw does not roll an earlier write back.  `auditOk`
models whether the `await ActivityLog.create(...)` call succeeds. -/

/-- `ActivityLog.create` (a single awaited insert); on failure the state is
unchanged and the rejection propagates to the point of the call. -/
def logCreate (auditOk : Bool) (e : LogEntry) (s : AppState) : AppState × Except Err Unit :=
  if auditOk then ({ s with logs := s.logs ++ [e] }, Except.ok ())
  else (s, Except.error Err.errorInternal)

/-- `Mutation.createDatabase` (lines 262-310): Admin only; blank name
rejected; `save()` hits the unique `(tenantId, name)` index and the catch
translates E11000 into the duplicate-name `UserInputError`; any other error
inside the try (including an audit failure) becomes the generic Error. -/
def createDatabase (ctx : Ctx) (name : String) (auditOk : Bool) (s : AppState) :
    AppState × Except Err DatabaseDef :=
  match ctx with
  | none => (s, Except.error Err.authenticationError)
  | some u =>
    if u.role ≠ Role.Admin then (s, Except.error Err.forbiddenRole)
    else if strTrim name = "" then (s, Except.error Err.userInputInvalid)
    else if s.databases.any (fun d => decide (d.tenantId = u.tenantId ∧ d.name = name)) then
      (s, Except.error Err.userInputConflict)
    else
      let newDb : DatabaseDef :=
        { id := s.nextDatabaseId, tenantId := u.tenantId, name := name,
          fields := [], isDeleted := false }
      let s1 := { s with databases := s.databases ++ [newDb],
                         nextDatabaseId := s.nextDatabaseId + 1 }
      match logCreate auditOk
          { tenantId := u.tenantId, userId := u.userId,
            action := "CREATE_DATABASE", createdAt := s1.now } s1 with
      | (s2, Except.ok _) => (s2, Except.ok newDb)
      | (s2, Except.error _) => (s2, Except.error Err.errorInternal)

/-- `Mutation.updateDatabase` (lines 312-362): Admin only; blank name
rejected; `findOneAndUpdate({_id, tenantId}, {$set: {name}})` — note there
is no `isDeleted` condition in the query; a miss throws the not-found
Error; a duplicate new name trips the unique index (E11000 → Conflict);
the catch rethrows any other error (so an audit failure propagates). -/
def updateDatabase (ctx : Ctx) (id : Nat) (name : String) (auditOk : Bool) (s : AppState) :
    AppState × Except Err DatabaseDef :=
  match ctx with
  | none => (s, Except.error Err.authenticationError)
  | some u =>
    if u.role ≠ Role.Admin then (s, Except.error Err.forbiddenRole)
    else if strTrim name = "" then (s, Except.error Err.userInputInvalid)
    else
      match s.databases.find? (fun d => decide (d.id = id ∧ d.tenantId = u.tenantId)) with
      | none => (s, Except.error Err.errorNotFound)
      | some d =>
        if s.databases.any (fun d2 =>
            decide (d2.tenantId = u.tenantId ∧ d2.name = name ∧ d2.id ≠ d.id)) then
          (s, Except.error Err.userInputConflict)
        else
          let d2 := { d with name := name }
          let dbs2 := updateFirst (fun x => decide (x.id = id ∧ x.tenantId = u.tenantId))
            (fun x => { x with name := name }) s.databases
          let s1 := { s with databases := dbs2 }
          match logCreate auditOk
              { tenantId := u.tenantId, userId := u.userId,
                action := "UPDATE_DATABASE", createdAt := s1.now } s1 with
          | (s2, Except.ok _) => (s2, Except.ok d2)
          | (s2, Except.error _) => (s2, Except.error Err.errorInternal)

/-- `Mutation.deleteDatabase` (lines 363-399): Admin only;
`findOneAndUpdate({_id, tenantId}, {$set: {isDeleted: true}})`; a miss
throws the not-found Error; returns `true`. -/
def deleteDatabase (ctx : Ctx) (id : Nat) (auditOk : Bool) (s : AppState) :
    AppState × Except Err Bool :=
  match ctx with
  | none => (s, Except.error Err.authenticationError)
  | some u =>
    if u.role ≠ Role.Admin then (s, Except.error Err.forbiddenRole)
    else
      match s.databases.find? (fun d => decide (d.id = id ∧ d.tenantId = u.tenantId)) with
      | none => (s, Except.error Err.errorNotFound)
      | some _ =>
        let dbs2 := updateFirst (fun x => decide (x.id = id ∧ x.tenantId = u.tenantId))
          (fun x => { x with isDeleted := true }) s.databases
        let s1 := { s with databases := dbs2 }
        match logCreate auditOk
            { tenantId := u.tenantId, userId := u.userId,
              action := "DELETE_DATABASE", createdAt := s1.now } s1 with
        | (s2, Except.ok _) => (s2, Except.ok true)
        | (s2, Except.error _) => (s2, Except.error Err.errorInternal)

/-- `Mutation.createField` (lines 401-450): Admin only; looks up the
database by `{_id, tenantId}` (miss → `ForbiddenError` with a not-found
message); rejects a case-insensitive duplicate field name; otherwise
appends the field (Mongoose assigns the subdocument a fresh `_id`) and
saves. -/
def createField (ctx : Ctx) (databaseId : Nat) (field : FieldInput) (auditOk : Bool)
    (s : AppState) : AppState × Except Err DatabaseDef :=
  match ctx with
  | none => (s, Except.error Err.authenticationError)
  | some u =>
    if u.role ≠ Role.Admin then (s, Except.error Err.forbiddenRole)
    else
      match s.databases.find? (fun d => decide (d.id = databaseId ∧ d.tenantId = u.tenantId)) with
      | none => (s, Except.error Err.forbiddenNotFound)
      | some db =>
        if db.fields.any (fun f => decide (toLowerStr f.name = toLowerStr field.name)) then
          (s, Except.error Err.userInputConflict)
        else
          let nf : Field :=
            { fid := s.nextFieldId, name := field.name,
              ftype := field.ftype, options := field.options }
          let db2 := { db with fields := db.fields ++ [nf] }
          let dbs2 := updateFirst
            (fun d => decide (d.id = databaseId ∧ d.tenantId = u.tenantId))
            (fun d => { d with fields := d.fields ++ [nf] }) s.databases
          let s1 := { s with databases := dbs2, nextFieldId := s.nextFieldId + 1 }
          match logCreate auditOk
              { tenantId := u.tenantId, userId := u.userId,
                action := "CREATE_FIELD", createdAt := s1.now } s1 with
          | (s2, Except.ok _) => (s2, Except.ok db2)
          | (s2, Except.error _) => (s2, Except.error Err.errorInternal)

/-- The effect of `fieldToUpdate.set(field)` on the fields array: the field
with the given subdocument id takes the input's attributes, keeping its
`_id` and its position. -/
def setFieldIn (fieldId : Nat) (field : FieldInput) (fs : List Field) : List Field :=
  fs.map (fun f =>
    if f.fid = fieldId then
      { f with name := field.name, ftype := field.ftype, options := field.options }
    else f)

/-- `Mutation.updateField` (lines 452-500): Admin only; database looked up
by `{_id, tenantId}` (miss → `ForbiddenError` not-found); the field looked
up by subdocument id (miss → `UserInputError` not-found); a different field
sharing the new name case-insensitively → duplicate `UserInputError`;
otherwise the field is replaced in place. -/
def updateField (ctx : Ctx) (databaseId fieldId : Nat) (field : FieldInput) (auditOk : Bool)
    (s : AppState) : AppState × Except Err DatabaseDef :=
  match ctx with
  | none => (s, Except.error Err.authenticationError)
  | some u =>
    if u.role ≠ Role.Admin then (s, Except.error Err.forbiddenRole)
    else
      match s.databases.find? (fun d => decide (d.id = databaseId ∧ d.tenantId = u.tenantId)) with
      | none => (s, Except.error Err.forbiddenNotFound)
      | some db =>
        match db.fields.find? (fun f => decide (f.fid = fieldId)) with
        | none => (s, Except.error Err.userInputNotFound)
        | some _ =>
          if db.fields.any (fun f =>
              decide (toLowerStr f.name = toLowerStr field.name ∧ f.fid ≠ fieldId)) then
            (s, Except.error Err.userInputConflict)
          else
            let db2 := { db with fields := setFieldIn fieldId field db.fields }
            let dbs2 := updateFirst
              (fun d => decide (d.id = databaseId ∧ d.tenantId = u.tenantId))
              (fun d => { d with fields := setFieldIn fieldId field d.fields })
              s.databases
            let s1 := { s with databases := dbs2 }
            match logCreate auditOk
                { tenantId := u.tenantId, userId := u.userId,
                  action := "UPDATE_FIELD", createdAt := s1.now } s1 with
            | (s2, Except.ok _) => (s2, Except.ok db2)
            | (s2, Except.error _) => (s2, Except.error Err.errorInternal)

/-- `Mutation.deleteField` (lines 502-540): Admin only; same lookups as
updateField; removes the subdocument from the array and saves. -/
def deleteField (ctx : Ctx) (databaseId fieldId : Nat) (auditOk : Bool) (s : AppState) :
    AppState × Except Err DatabaseDef :=
  match ctx with
  | none => (s, Except.error Err.authenticationError)
  | some u =>
    if u.role ≠ Role.Admin then (s, Except.error Err.forbiddenRole)
    else
      match s.databases.find? (fun d => decide (d.id = databaseId ∧ d.tenantId = u.tenantId)) with
      | none => (s, Except.error Err.forbiddenNotFound)
      | some db =>
        match db.fields.find? (fun f => decide (f.fid = fieldId)) with
        | none => (s, Except.error Err.userInputNotFound)
        | some _ =>
          let db2 := { db with fields := db.fields.filter (fun f => decide (f.fid ≠ fieldId)) }
          let dbs2 := updateFirst
            (fun d => decide (d.id = databaseId ∧ d.tenantId = u.tenantId))
            (fun d => { d with fields := d.fields.filter (fun f => decide (f.fid ≠ fieldId)) })
            s.databases
          let s1 := { s with databases := dbs2 }
          match logCreate auditOk
              { tenantId := u.tenantId, userId := u.userId,
                action := "DELETE_FIELD", createdAt := s1.now } s1 with
          | (s2, Except.ok _) => (s2, Except.ok db2)
          | (s2, Except.error _) => (s2, Except.error Err.errorInternal)

/-- The createRecord validation loop (lines 560-567): iterate the
database's field list; copy the input value for each defined field name
present in the input; input keys matching no field are dropped silently. -/
def validatedValues (fields : List Field) (values : VMap) : VMap :=
  fields.foldl (fun acc f =>
    match mapGet values f.name with
    | some v => mapSet acc f.name v
    | none => acc) []

/-- `Mutation.createRecord` (lines 542-597): Editor or Admin; database
looked up by `{_id, tenantId}` (miss → `ForbiddenError` not-found); values
whitelisted by `validatedValues`; the new record saved and logged. -/
def createRecord (ctx : Ctx) (databaseId : Nat) (values : VMap) (auditOk : Bool)
    (s : AppState) : AppState × Except Err RecordDoc :=
  match ctx with
  | none => (s, Except.error Err.authenticationError)
  | some u =>
    if ¬ (u.role = Role.Editor ∨ u.role = Role.Admin) then (s, Except.error Err.forbiddenRole)
    else
      match s.databases.find? (fun d => decide (d.id = databaseId ∧ d.tenantId = u.tenantId)) with
      | none => (s, Except.error Err.forbiddenNotFound)
      | some db =>
        let nr : RecordDoc :=
          { id := s.nextRecordId, tenantId := u.tenantId, databaseId := databaseId,
            values := validatedValues db.fields values, isDeleted := false,
            createdAt := s.now, updatedAt := s.now }
        let s1 := { s with records := s.records ++ [nr], nextRecordId := s.nextRecordId + 1 }
        match logCreate auditOk
            { tenantId := u.tenantId, userId := u.userId,
              action := "CREATE_RECORD", createdAt := s1.now } s1 with
        | (s2, Except.ok _) => (s2, Except.ok nr)
        | (s2, Except.error _) => (s2, Except.error Err.errorInternal)

/-- The updateRecord merge loop (lines 622-624): each input entry is
`set` into the record's existing Map — overwrite or insert, with no check
against the database's field list. -/
def mergeValues (old input : VMap) : VMap :=
  input.foldl (fun acc kv => mapSet acc kv.1 kv.2) old

/-- `Mutation.updateRecord` (lines 599-651): Editor or Admin; record
looked up by `{_id, tenantId}` (miss → `UserInputError` not-found); merges
the input values, refreshes `updatedAt`, saves, logs. -/
def updateRecord (ctx : Ctx) (id : Nat) (values : VMap) (auditOk : Bool) (s : AppState) :
    AppState × Except Err RecordDoc :=
  match ctx with
  | none => (s, Except.error Err.authenticationError)
  | some u =>
    if ¬ (u.role = Role.Editor ∨ u.role = Role.Admin) then (s, Except.error Err.forbiddenRole)
    else
      match s.records.find? (fun r => decide (r.id = id ∧ r.tenantId = u.tenantId)) with
      | none => (s, Except.error Err.userInputNotFound)
      | some r =>
        let r2 := { r with values := mergeValues r.values values, updatedAt := s.now }
        let recs2 := updateFirst
          (fun x => decide (x.id = id ∧ x.tenantId = u.tenantId))
          (fun x => { x with values := mergeValues x.values values, updatedAt := s.now })
          s.records
        let s1 := { s with records := recs2 }
        match logCreate auditOk
            { tenantId := u.tenantId, userId := u.userId,
              action := "UPDATE_RECORD", createdAt := s1.now } s1 with
        | (s2, Except.ok _) => (s2, Except.ok r2)
        | (s2, Except.error _) => (s2, Except.error Err.errorInternal)

/-- `Mutation.deleteRecord` (lines 653-683): Editor or Admin;
`findOneAndUpdate({_id, tenantId}, {$set: {isDeleted: true, updatedAt}})`;
a miss throws the not-found `UserInputError`; returns `true`. -/
def deleteRecord (ctx : Ctx) (id : Nat) (auditOk : Bool) (s : AppState) :
    AppState × Except Err Bool :=
  match ctx with
  | none => (s, Except.error Err.authenticationError)
  | some u =>
    if ¬ (u.role = Role.Editor ∨ u.role = Role.Admin) then (s, Except.error Err.forbiddenRole)
    else
      match s.records.find? (fun r => decide (r.id = id ∧ r.tenantId = u.tenantId)) with
      | none => (s, Except.error Err.userInputNotFound)
      | some _ =>
        let recs2 := updateFirst
          (fun x => decide (x.id = id ∧ x.tenantId = u.tenantId))
          (fun x => { x with isDeleted := true, updatedAt := s.now }) s.records
        let s1 := { s with records := recs2 }
        match logCreate auditOk
            { tenantId := u.tenantId, userId := u.userId,
              action := "DELETE_RECORD", createdAt := s1.now } s1 with
        | (s2, Except.ok _) => (s2, Except.ok true)
        | (s2, Except.error _) => (s2, Except.error Err.errorInternal)

/-- Well-formed backing state: document ids are unique within each
collection (MongoDB `_id` uniqueness). -/
def WF (s : AppState) : Prop :=
  (s.databases.map (fun d => d.id)).Nodup ∧ (s.records.map (fun r => r.id)).Nodup

/-! ## Helper lemmas -/

theorem find?_map_set_self (k : String) (v : Value) (m : VMap)
    (h : m.any (fun kv => decide (kv.1 = k)) = true) :
    List.find? (fun kv => decide (kv.1 = k))
      (m.map (fun kv => if kv.1 = k then (k, v) else kv)) = some (k, v) := by
  induction m with
  | nil => simp at h
  | cons x xs ih =>
    simp only [List.map_cons]
    by_cases hx : x.1 = k
    · rw [if_pos hx]
      simp [List.find?]
    · rw [if_neg hx]
      simp only [List.find?, decide_eq_false hx, cond_false]
      simp only [List.any_cons, decide_eq_false hx, Bool.false_or] at h
      exact ih h

theorem mapGet_mapSet_self (m : VMap) (k : String) (v : Value) :
    mapGet (mapSet m k v) k = some v := by
  unfold mapSet
  by_cases h : m.any (fun kv => decide (kv.1 = k)) = true
  · rw [if_pos h]
    unfold mapGet
    rw [find?_map_set_self k v m h]
    rfl
  · rw [if_neg h]
    unfold mapGet
    rw [List.find?_append]
    have hnone : m.find? (fun kv => decide (kv.1 = k)) = none := by
      rw [List.find?_eq_none]
      intro x hx
      simp only [decide_eq_true_eq]
      intro hxk
      exact h (List.any_eq_true.2 ⟨x, hx, decide_eq_true hxk⟩)
    simp [hnone, List.find?]

theorem find?_map_set_ne (k k2 : String) (v : Value) (hne : k2 ≠ k) (m : VMap) :
    List.find? (fun kv => decide (kv.1 = k2))
      (m.map (fun kv => if kv.1 = k then (k, v) else kv)) =
    List.find? (fun kv => decide (kv.1 = k2)) m := by
  induction m with
  | nil => rfl
  | cons x xs ih =>
    simp only [List.map_cons]
    by_cases hx : x.1 = k
    · rw [if_pos hx]
      have h1 : (decide ((k, v).1 = k2)) = false := decide_eq_false (fun hh => hne hh.symm)
      have h2 : (decide (x.1 = k2)) = false := decide_eq_false (fun hh => hne (hx ▸ hh).symm)
      simp only [List.find?, h1, h2, cond_false]
      exact ih
    · rw [if_neg hx]
      cases hdec : decide (x.1 = k2) with
      | true => simp [List.find?, hdec]
      | false =>
        simp only [List.find?, hdec, cond_false]
        exact ih

theorem mapGet_mapSet_ne (m : VMap) (k k2 : String) (v : Value) (hne : k2 ≠ k) :
    mapGet (mapSet m k v) k2 = mapGet m k2 := by
  unfold mapSet
  by_cases h : m.any (fun kv => decide (kv.1 = k)) = true
  · rw [if_pos h]
    unfold mapGet
    rw [find?_map_set_ne k k2 v hne m]
  · rw [if_neg h]
    unfold mapGet
    rw [List.find?_append]
    have h1 : (decide ((k, v).1 = k2)) = false := decide_eq_false (fun hh => hne hh.symm)
    cases hfind : m.find? (fun kv => decide (kv.1 = k2)) with
    | some kv => simp [hfind]
    | none => simp [hfind, List.find?, h1]

theorem mapGet_mergeValues_none (old input : VMap) (k : String)
    (h : mapGet input k = none) :
    mapGet (mergeValues old input) k = mapGet old k := by
  unfold mergeValues
  induction input generalizing old with
  | nil => rfl
  | cons kv rest ih =>
    simp only [List.foldl]
    have hk : ¬ kv.1 = k := by
      intro hh
      unfold mapGet at h
      simp [List.find?, hh] at h
    have hrest : mapGet rest k = none := by
      unfold mapGet at h ⊢
      simp only [List.find?, decide_eq_false hk, cond_false] at h
      exact h
    rw [ih (mapSet old kv.1 kv.2) hrest]
    exact mapGet_mapSet_ne old kv.1 k kv.2 (fun hh => hk hh.symm)

theorem mapGet_mergeValues_some (old input : VMap) (k : String) (v : Value)
    (hnd : (input.map Prod.fst).Nodup) (h : mapGet input k = some v) :
    mapGet (mergeValues old input) k = some v := by
  unfold mergeValues
  induction input generalizing old with
  | nil => simp [mapGet, List.find?] at h
  | cons kv rest ih =>
    simp only [List.foldl]
    by_cases hk : kv.1 = k
    · have hval : kv.2 = v := by
        unfold mapGet at h
        simp [List.find?, hk] at h
        exact h
      have hfind : rest.find? (fun kv2 => decide (kv2.1 = k)) = none := by
        rw [List.find?_eq_none]
        intro x hx
        simp only [decide_eq_true_eq]
        intro hxk
        simp only [List.map_cons, List.nodup_cons] at hnd
        exact hnd.1 (hk ▸ hxk ▸ List.mem_map_of_mem Prod.fst hx)
      have hnotin : mapGet rest k = none := by simp [mapGet, hfind]
      have hrw := mapGet_mergeValues_none (mapSet old kv.1 kv.2) rest k hnotin
      unfold mergeValues at hrw
      rw [hrw, hk, hval]
      exact mapGet_mapSet_self old k v
    · have hrest : mapGet rest k = some v := by
        unfold mapGet at h ⊢
        simp only [List.find?, decide_eq_false hk, cond_false] at h
        exact h
      simp only [List.map_cons, List.nodup_cons] at hnd
      exact ih (mapSet old kv.1 kv.2) hnd.2 hrest

theorem mapGet_validatedValues_aux (values : VMap) (fields : List Field) (acc : VMap)
    (k : String) :
    mapGet (fields.foldl (fun acc f =>
        match mapGet values f.name with
        | some v => mapSet acc f.name v
        | none => acc) acc) k =
      if fields.any (fun f => decide (f.name = k)) ∧ (mapGet values k).isSome then
        mapGet values k
      else mapGet acc k := by
  induction fields generalizing acc with
  | nil => simp
  | cons f fs ih =>
    by_cases hf : f.name = k
    · cases hvk : mapGet values k with
      | some v =>
        have hvf : mapGet values f.name = some v := by rw [hf, hvk]
        simp only [List.foldl, hvf]
        rw [ih]
        have hself : mapGet (mapSet acc f.name v) k = some v := by
          rw [hf]
          exact mapGet_mapSet_self acc k v
        by_cases hany : fs.any (fun g => decide (g.name = k)) = true
        · simp [List.any_cons, hany, hvk, hf]
        · simp [List.any_cons, hany, hvk, hf, hself, mapGet_mapSet_self]
      | none =>
        have hvf : mapGet values f.name = none := by rw [hf, hvk]
        simp only [List.foldl, hvf]
        rw [ih]
        simp [hvk]
    · cases hvf : mapGet values f.name with
      | some v =>
        simp only [List.foldl, hvf]
        rw [ih]
        have hne : mapGet (mapSet acc f.name v) k = mapGet acc k :=
          mapGet_mapSet_ne acc f.name k v (fun hh => hf hh.symm)
        simp only [List.any_cons, decide_eq_false hf, Bool.false_or, hne]
      | none =>
        simp only [List.foldl, hvf]
        rw [ih]
        simp only [List.any_cons, decide_eq_false hf, Bool.false_or]

/-- Characterization of the createRecord whitelist: a key survives iff some
field of the database bears that name, and then its value is copied
verbatim. -/
theorem mapGet_validatedValues (fields : List Field) (values : VMap) (k : String) :
    mapGet (validatedValues fields values) k =
      if fields.any (fun f => decide (f.name = k)) then mapGet values k else none := by
  unfold validatedValues
  rw [mapGet_validatedValues_aux values fields [] k]
  by_cases hany : fields.any (fun f => decide (f.name = k)) = true
  · cases hvk : mapGet values k with
    | some v => simp [hany, hvk]
    | none => simp [hany, hvk, mapGet]
  · simp [hany, mapGet]

theorem updateFirst_of_find?_some {α : Type} (p : α → Bool) (f : α → α) (l : List α)
    (x : α) (h : l.find? p = some x) : f x ∈ updateFirst p f l := by
  induction l with
  | nil => simp [List.find?] at h
  | cons y ys ih =>
    unfold updateFirst
    by_cases hy : p y = true
    · simp only [List.find?, hy] at h
      simp only [hy, if_true]
      simp only [cond_true, Option.some.injEq] at h
      exact h ▸ List.mem_cons_self _ _
    · simp only [List.find?, Bool.not_eq_true] at h
      rw [Bool.not_eq_true] at hy
      simp only [hy, cond_false] at h
      simp only [hy, Bool.false_eq_true, if_false]
      exact List.mem_cons_of_mem y (ih h)

theorem mem_insertLe {α : Type} (le : α → α → Bool) (x a : α) (l : List α) :
    a ∈ insertLe le x l ↔ a = x ∨ a ∈ l := by
  induction l with
  | nil => simp [insertLe]
  | cons y ys ih =>
    unfold insertLe
    by_cases h : le x y = true
    · simp [h]
    · simp only [h, Bool.false_eq_true, if_false, List.mem_cons, ih]
      tauto

theorem mem_sortBy {α : Type} (le : α → α → Bool) (a : α) (l : List α) :
    a ∈ sortBy le l ↔ a ∈ l := by
  induction l with
  | nil => simp [sortBy]
  | cons y ys ih =>
    unfold sortBy
    rw [mem_insertLe, ih, List.mem_cons]

theorem mem_paginate {α : Type} (page limit : Option Int) (dflt : Int) (l : List α)
    (a : α) (h : a ∈ paginate page limit dflt l) : a ∈ l := by
  unfold paginate at h
  exact (List.drop_sublist _ _).subset ((List.take_sublist _ _).subset h)

theorem mem_sortStage (srt : Option (String × String)) (a : RecordDoc)
    (l : List RecordDoc) (h : a ∈ sortStage srt l) : a ∈ l := by
  unfold sortStage at h
  match srt with
  | none => exact h
  | some fo => exact (mem_sortBy _ a l).1 h

theorem mem_filterStage (filt : Option (List (String × Value))) (a : RecordDoc)
    (l : List RecordDoc) (h : a ∈ filterStage filt l) : a ∈ l := by
  unfold filterStage at h
  match filt with
  | none => exact h
  | some conds => exact (List.mem_filter.1 h).1

theorem mem_searchStage (s : AppState) (databaseId : Nat) (search : Option String)
    (a : RecordDoc) (l : List RecordDoc) (h : a ∈ searchStage s databaseId search l) :
    a ∈ l := by
  unfold searchStage at h
  match search with
  | none => exact h
  | some term =>
    revert h
    cases s.databases.find? (fun d => decide (d.id = databaseId)) with
    | none => exact id
    | some db =>
      simp only []
      by_cases he : (textFieldNames db).isEmpty = true
      · simp [he]
      · simp only [he, Bool.false_eq_true, if_false]
        exact fun h => (List.mem_filter.1 h).1

theorem mem_baseMatch (tenantId databaseId : Nat) (a : RecordDoc) (l : List RecordDoc)
    (h : a ∈ baseMatch tenantId databaseId l) :
    a ∈ l ∧ a.databaseId = databaseId ∧ a.tenantId = tenantId ∧ a.isDeleted = false := by
  unfold baseMatch at h
  have := List.mem_filter.1 h
  simp only [decide_eq_true_eq] at this
  exact ⟨this.1, this.2⟩

/-- Id-uniqueness turns a mismatching tenant into a failed lookup: no
element of the list satisfies a predicate requiring both `x`'s id and a
property `x` itself fails. -/
theorem find?_eq_none_of_nodup {α : Type} (l : List α) (idOf : α → Nat)
    (hnd : (l.map idOf).Nodup) (x : α) (hx : x ∈ l) (q : α → Prop) [DecidablePred q]
    (hq : ¬ q x) (hcompat : ∀ y, q y → idOf y = idOf x) :
    l.find? (fun y => decide (q y)) = none := by
  rw [List.find?_eq_none]
  intro y hy
  simp only [decide_eq_true_eq]
  intro hqy
  have hid : idOf y = idOf x := hcompat y hqy
  have : y = x := List.inj_on_of_nodup_map hnd hy hx hid
  exact hq (this ▸ hqy)

/-! ## Concrete fixtures used by witnesses and counterexamples -/

def uAdminT1 : Principal := { userId := 100, tenantId := 1, role := Role.Admin }

def uEditorT1 : Principal := { userId := 101, tenantId := 1, role := Role.Editor }

def uViewerT1 : Principal := { userId := 102, tenantId := 1, role := Role.Viewer }

def emptyState : AppState :=
  { databases := [], records := [], logs := [],
    nextDatabaseId := 1, nextFieldId := 1, nextRecordId := 1, now := 0 }

/-- A soft-deleted database owned by tenant 1. -/
def dbDeleted : DatabaseDef :=
  { id := 3, tenantId := 1, name := "Old", fields := [], isDeleted := true }

def sDeleted : AppState :=
  { databases := [dbDeleted], records := [], logs := [],
    nextDatabaseId := 50, nextFieldId := 50, nextRecordId := 50, now := 99 }

def fieldA : Field := { fid := 1, name := "a", ftype := "text", options := [] }

/-- A live database of tenant 1 with a single text field "a". -/
def dbD : DatabaseDef :=
  { id := 4, tenantId := 1, name := "D", fields := [fieldA], isDeleted := false }

def recT1 : RecordDoc :=
  { id := 20, tenantId := 1, databaseId := 4, values := [("a", Value.str "v")],
    isDeleted := false, createdAt := 0, updatedAt := 0 }

def sRec : AppState :=
  { databases := [dbD], records := [recT1], logs := [],
    nextDatabaseId := 50, nextFieldId := 50, nextRecordId := 50, now := 99 }

def fieldEmail : Field := { fid := 1, name := "Email", ftype := "text", options := [] }

def dbEmail : DatabaseDef :=
  { id := 6, tenantId := 1, name := "Contacts", fields := [fieldEmail], isDeleted := false }

def sEmail : AppState :=
  { databases := [dbEmail], records := [], logs := [],
    nextDatabaseId := 50, nextFieldId := 50, nextRecordId := 50, now := 99 }

def fieldX : Field := { fid := 1, name := "x", ftype := "text", options := [] }

/-- Tenant 2 owns database 5 whose only text field is "x". -/
def dbT2 : DatabaseDef :=
  { id := 5, tenantId := 2, name := "T2Db", fields := [fieldX], isDeleted := false }

/-- The same database with an empty field list. -/
def dbT2Bare : DatabaseDef :=
  { id := 5, tenantId := 2, name := "T2Db", fields := [], isDeleted := false }

def recHello : RecordDoc :=
  { id := 10, tenantId := 1, databaseId := 5, values := [("x", Value.str "Hello World")],
    isDeleted := false, createdAt := 0, updatedAt := 0 }

def recZzz : RecordDoc :=
  { id := 11, tenantId := 1, databaseId := 5, values := [("x", Value.str "zzz")],
    isDeleted := false, createdAt := 0, updatedAt := 0 }

def recT2 : RecordDoc :=
  { id := 12, tenantId := 2, databaseId := 5, values := [("x", Value.str "hello")],
    isDeleted := false, createdAt := 0, updatedAt := 0 }

def sSearchA : AppState :=
  { databases := [dbT2], records := [recHello, recZzz, recT2], logs := [],
    nextDatabaseId := 50, nextFieldId := 50, nextRecordId := 50, now := 0 }

def sSearchB : AppState :=
  { databases := [dbT2Bare], records := [recHello, recZzz, recT2], logs := [],
    nextDatabaseId := 50, nextFieldId := 50, nextRecordId := 50, now := 0 }

/-- The i-th of 25 records of tenant 1 in database 7 (for the pagination
example). -/
def rec25 (i : Nat) : RecordDoc :=
  { id := 10 + i, tenantId := 1, databaseId := 7, values := [("n", Value.num (Int.ofNat i))],
    isDeleted := false, createdAt := i, updatedAt := i }

def s25 : AppState :=
  { databases := [], records := (List.range 25).map rec25, logs := [],
    nextDatabaseId := 50, nextFieldId := 50, nextRecordId := 50, now := 99 }

/-! ## Claim theorems -/

/-- Claim C9 is false as stated: on the single-database-lookup path
(`Query.database`), an unmatched id does not return null — the resolver
throws the not-found `Error` (resolvers.js lines 47-51).  Concretely, with
no databases at all the query yields the error outcome. -/
theorem C9_counterexample :
    databaseQ (some uAdminT1) 7 emptyState = Except.error Err.errorNotFound := by
  rfl

/-- Claim C9 amended: when no live tenant-owned database matches, the
`database(id)` query throws a NotFound error; it is the `record(id)` query
that returns null (modelled `ok none`) rather than throwing. -/
theorem C9_single_lookup_contract (s : AppState) (u : Principal) (id : Nat)
    (hdb : s.databases.find? (fun d =>
        decide (d.id = id ∧ d.tenantId = u.tenantId ∧ d.isDeleted = false)) = none)
    (hrec : s.records.find? (fun r => decide (r.id = id ∧ r.tenantId = u.tenantId)) = none) :
    databaseQ (some u) id s = Except.error Err.errorNotFound
    ∧ recordQ (some u) id s = Except.ok none := by
  constructor
  · simp only [databaseQ]
    rw [hdb]
  · simp only [recordQ]
    rw [hrec]

theorem C9_single_lookup_contract_witness :
    databaseQ (some uAdminT1) 7 emptyState = Except.error Err.errorNotFound
    ∧ recordQ (some uAdminT1) 7 emptyState = Except.ok none :=
  C9_single_lookup_contract emptyState uAdminT1 7 (by rfl) (by rfl)

/-- Claim C8 is false as stated: `updateDatabase` does not exclude
soft-deleted databases — its `findOneAndUpdate` query (resolvers.js line
330) filters only on `_id` and `tenantId`, so a soft-deleted tenant-owned
database is found and renamed instead of yielding NotFound. -/
theorem C8_counterexample :
    (updateDatabase (some uAdminT1) 3 "NewName" true sDeleted).2 =
      Except.ok { id := 3, tenantId := 1, name := "NewName", fields := [], isDeleted := true } := by
  rfl

/-- Claim C8 amended: `updateDatabase(id, name)` fails NotFound exactly when
no database matches `{_id: id, tenantId: caller}` — absence of the id or
foreign-tenant ownership; the soft-delete flag is NOT part of the lookup,
and a soft-deleted tenant-owned database is renamed (flag intact). -/
theorem C8_updateDatabase_lookup (s : AppState) (u : Principal) (id : Nat) (name : String)
    (hrole : u.role = Role.Admin) (hname : ¬ strTrim name = "") :
    (s.databases.find? (fun d => decide (d.id = id ∧ d.tenantId = u.tenantId)) = none →
      (updateDatabase (some u) id name true s).2 = Except.error Err.errorNotFound)
    ∧ (∀ d, s.databases.find? (fun d2 => decide (d2.id = id ∧ d2.tenantId = u.tenantId)) = some d →
        d.isDeleted = true →
        ¬ (s.databases.any (fun d2 =>
            decide (d2.tenantId = u.tenantId ∧ d2.name = name ∧ d2.id ≠ d.id)) = true) →
        (updateDatabase (some u) id name true s).2 = Except.ok { d with name := name }
        ∧ ({ d with name := name } : DatabaseDef).isDeleted = true) := by
  have hrole2 : ¬ (u.role ≠ Role.Admin) := fun h => h hrole
  constructor
  · intro hfind
    simp only [updateDatabase]
    rw [if_neg hrole2, if_neg hname, hfind]
  · intro d hfind hdel hconf
    constructor
    · simp only [updateDatabase, hfind]
      rw [if_neg hrole2, if_neg hname, if_neg hconf]
      rfl
    · simpa using hdel

theorem C8_updateDatabase_lookup_witness :
    ((sDeleted.databases.find? (fun d =>
        decide (d.id = 3 ∧ d.tenantId = uAdminT1.tenantId)) = some dbDeleted)
      ∧ dbDeleted.isDeleted = true)
    ∧ ((updateDatabase (some uAdminT1) 3 "NewName" true sDeleted).2 =
        Except.ok { dbDeleted with name := "NewName" }
      ∧ ({ dbDeleted with name := "NewName" } : DatabaseDef).isDeleted = true) :=
  ⟨⟨by rfl, by rfl⟩,
    (C8_updateDatabase_lookup sDeleted uAdminT1 3 "NewName" rfl (by decide)).2
      dbDeleted (by rfl) (by rfl) (by decide)⟩

/-- Claim C7 is false as stated: the audit append is awaited sequentially
with no guard, so its failure escalates to the caller.  Concretely, a
`createDatabase` whose `ActivityLog.create` rejects leaves the new database
persisted but returns the generic error rather than the success result. -/
theorem C7_counterexample :
    (createDatabase (some uAdminT1) "MyDb" false emptyState).2 = Except.error Err.errorInternal
    ∧ ((createDatabase (some uAdminT1) "MyDb" false emptyState).1.databases.map
        (fun d => d.name)) = ["MyDb"] := by
  constructor
  · rfl
  · rfl

/-- Claim C7 amended: if the primary write succeeds but the ActivityLog
append fails, the primary write remains persisted, but the failure
propagates to the caller as an error — the mutation does not return its
success result (the source `await`s the audit insert with no handler;
createDatabase's catch converts it to the generic Error, updateRecord has
no catch at all). -/
theorem C7_audit_failure_escalates (s : AppState) (u : Principal) (id : Nat)
    (name : String) (values : VMap) (r : RecordDoc)
    (hadmin : u.role = Role.Admin)
    (hname : ¬ strTrim name = "")
    (hnodup : ¬ (s.databases.any (fun d =>
        decide (d.tenantId = u.tenantId ∧ d.name = name)) = true))
    (hrole : u.role = Role.Editor ∨ u.role = Role.Admin)
    (hfind : s.records.find? (fun x => decide (x.id = id ∧ x.tenantId = u.tenantId)) = some r) :
    ((createDatabase (some u) name false s).2 = Except.error Err.errorInternal
      ∧ (∃ d ∈ (createDatabase (some u) name false s).1.databases,
          d.name = name ∧ d.tenantId = u.tenantId))
    ∧ ((updateRecord (some u) id values false s).2 = Except.error Err.errorInternal
      ∧ { r with values := mergeValues r.values values, updatedAt := s.now }
          ∈ (updateRecord (some u) id values false s).1.records) := by
  have hadmin2 : ¬ (u.role ≠ Role.Admin) := fun h => h hadmin
  have hcond : ¬ ¬ (u.role = Role.Editor ∨ u.role = Role.Admin) := not_not_intro hrole
  constructor
  · constructor
    · simp only [createDatabase]
      rw [if_neg hadmin2, if_neg hname, if_neg hnodup]
      rfl
    · simp only [createDatabase]
      rw [if_neg hadmin2, if_neg hname, if_neg hnodup]
      exact ⟨{ id := s.nextDatabaseId, tenantId := u.tenantId, name := name, fields := [], isDeleted := false }, List.mem_append_right _ (List.mem_singleton.mpr rfl), rfl, rfl⟩
  · constructor
    · simp only [updateRecord, hfind]
      rw [if_neg hcond]
      rfl
    · have hmem := updateFirst_of_find?_some
        (fun x => decide (x.id = id ∧ x.tenantId = u.tenantId))
        (fun x => { x with values := mergeValues x.values values, updatedAt := s.now })
        s.records r hfind
      simp only [updateRecord, hfind]
      rw [if_neg hcond]
      exact hmem

theorem C7_audit_failure_escalates_witness :
    ((createDatabase (some uAdminT1) "MyDb" false sRec).2 = Except.error Err.errorInternal
      ∧ (∃ d ∈ (createDatabase (some uAdminT1) "MyDb" false sRec).1.databases,
          d.name = "MyDb" ∧ d.tenantId = uAdminT1.tenantId))
    ∧ ((updateRecord (some uAdminT1) 20 [("b", Value.str "w")] false sRec).2 =
        Except.error Err.errorInternal
      ∧ { recT1 with values := mergeValues recT1.values [("b", Value.str "w")], updatedAt := sRec.now }
          ∈ (updateRecord (some uAdminT1) 20 [("b", Value.str "w")] false sRec).1.records) :=
  C7_audit_failure_escalates sRec uAdminT1 20 "MyDb" [("b", Value.str "w")] recT1
    rfl (by decide) (by decide) (Or.inr rfl) (by rfl)

/-- Claim C10 confirmed: the records query's search stage resolves the
database definition with `findById` alone (resolvers.js line 82, no tenant
filter), so another tenant's text-field list determines the searched value
paths: two states that agree on every tenant-1 entity but differ in tenant
2's database 5 give a tenant-1 caller different search results, while the
match stage still confines the output to tenant 1 (the tenant-2 record
containing "hello" is never returned). -/
theorem C10_search_fields_cross_tenant :
    dbT2.tenantId = 2 ∧ uAdminT1.tenantId = 1
    ∧ sSearchA.records = sSearchB.records
    ∧ sSearchA.databases.filter (fun d => decide (d.tenantId = uAdminT1.tenantId)) = []
    ∧ sSearchB.databases.filter (fun d => decide (d.tenantId = uAdminT1.tenantId)) = []
    ∧ recordsQ (some uAdminT1) 5 none none none none (some "hEl") sSearchA =
        Except.ok [recHello]
    ∧ recordsQ (some uAdminT1) 5 none none none none (some "hEl") sSearchB =
        Except.ok [recHello, recZzz]
    ∧ recT2 ∈ sSearchA.records ∧ recT2.tenantId = 2
    ∧ recHello.tenantId = 1 ∧ recZzz.tenantId = 1 := by
  refine ⟨rfl, rfl, rfl, rfl, rfl, rfl, rfl, ?_, rfl, rfl, rfl⟩
  decide

/-- Claim C2 confirmed: createRecord whitelists the input against the
database's field list — the stored mapping holds exactly the input keys
that name a defined field, copied verbatim, with undefined keys dropped
silently and no error — whereas updateRecord merges every input key into
the record's mapping with overwrite-or-insert semantics and no check
against the field list. -/
theorem C2_create_update_value_asymmetry (s : AppState) (u : Principal)
    (databaseId recId : Nat) (values : VMap) (db : DatabaseDef) (r : RecordDoc)
    (hrole : u.role = Role.Editor ∨ u.role = Role.Admin)
    (hdb : s.databases.find? (fun d =>
        decide (d.id = databaseId ∧ d.tenantId = u.tenantId)) = some db)
    (hrec : s.records.find? (fun x => decide (x.id = recId ∧ x.tenantId = u.tenantId)) = some r)
    (hnd : (values.map Prod.fst).Nodup) :
    (∃ nr, (createRecord (some u) databaseId values true s).2 = Except.ok nr
      ∧ ∀ k, mapGet nr.values k =
          if db.fields.any (fun f => decide (f.name = k)) then mapGet values k else none)
    ∧ (∃ r2, (updateRecord (some u) recId values true s).2 = Except.ok r2
      ∧ (∀ k v, mapGet values k = some v → mapGet r2.values k = some v)
      ∧ (∀ k, mapGet values k = none → mapGet r2.values k = mapGet r.values k)) := by
  have hrole2 : ¬ ¬ (u.role = Role.Editor ∨ u.role = Role.Admin) := not_not_intro hrole
  constructor
  · refine ⟨{ id := s.nextRecordId, tenantId := u.tenantId, databaseId := databaseId, values := validatedValues db.fields values, isDeleted := false, createdAt := s.now, updatedAt := s.now }, ?_, ?_⟩
    · simp only [createRecord, hdb]
      rw [if_neg hrole2]
      rfl
    · intro k
      exact mapGet_validatedValues db.fields values k
  · refine ⟨{ r with values := mergeValues r.values values, updatedAt := s.now }, ?_, ?_, ?_⟩
    · simp only [updateRecord, hrec]
      rw [if_neg hrole2]
      rfl
    · intro k v hv
      exact mapGet_mergeValues_some r.values values k v hnd hv
    · intro k hk
      exact mapGet_mergeValues_none r.values values k hk

theorem C2_create_update_value_asymmetry_witness :
    (∃ nr, (createRecord (some uEditorT1) 4 [("a", Value.str "v2"), ("zzz", Value.str "w")] true sRec).2 = Except.ok nr
      ∧ ∀ k, mapGet nr.values k =
          if dbD.fields.any (fun f => decide (f.name = k)) then
            mapGet [("a", Value.str "v2"), ("zzz", Value.str "w")] k
          else none)
    ∧ (∃ r2, (updateRecord (some uEditorT1) 20 [("a", Value.str "v2"), ("zzz", Value.str "w")] true sRec).2 = Except.ok r2
      ∧ (∀ k v, mapGet [("a", Value.str "v2"), ("zzz", Value.str "w")] k = some v →
          mapGet r2.values k = some v)
      ∧ (∀ k, mapGet [("a", Value.str "v2"), ("zzz", Value.str "w")] k = none →
          mapGet r2.values k = mapGet recT1.values k)) :=
  C2_create_update_value_asymmetry sRec uEditorT1 4 20
    [("a", Value.str "v2"), ("zzz", Value.str "w")] dbD recT1
    (Or.inl rfl) (by rfl) (by rfl) (by decide)

/-- Claim C3 confirmed: page defaults to 1 when unset or non-positive,
limit defaults to 20 (records) / 25 (activity logs) when unset or
non-positive, skip is (page-1)*limit applied after the sort stage and
followed by limit; with 25 matching records and limit 10, page 1 yields
records 1-10, page 3 yields records 21-25, page 4 yields the empty
sequence rather than an error. -/
theorem C3_pagination_semantics (u : Principal) (s : AppState) (databaseId : Nat)
    (filt : Option (List (String × Value))) (srt : Option (String × String))
    (page limit : Option Int) (search : Option String)
    (p0 ppos l0 lpos dflt : Int)
    (hp0 : p0 ≤ 0) (hppos : 0 < ppos) (hl0 : l0 ≤ 0) (hlpos : 0 < lpos) :
    pageNumOf none = 1
    ∧ pageNumOf (some p0) = 1
    ∧ pageNumOf (some ppos) = ppos
    ∧ limitNumOf 20 none = 20
    ∧ limitNumOf 25 none = 25
    ∧ limitNumOf dflt (some l0) = dflt
    ∧ limitNumOf dflt (some lpos) = lpos
    ∧ recordsQ (some u) databaseId filt srt page limit search s =
        Except.ok (((sortStage srt (filterStage filt (searchStage s databaseId search
          (baseMatch u.tenantId databaseId s.records)))).drop
            ((pageNumOf page - 1) * limitNumOf 20 limit).toNat).take
            (limitNumOf 20 limit).toNat)
    ∧ activityLogsQ (some u) limit page s =
        Except.ok (((sortBy (fun a b => decide (b.createdAt ≤ a.createdAt))
          (s.logs.filter (fun l => decide (l.tenantId = u.tenantId)))).drop
            ((pageNumOf page - 1) * limitNumOf 25 limit).toNat).take
            (limitNumOf 25 limit).toNat)
    ∧ recordsQ (some uAdminT1) 7 none none (some 1) (some 10) none s25 =
        Except.ok ((List.range 10).map rec25)
    ∧ recordsQ (some uAdminT1) 7 none none (some 3) (some 10) none s25 =
        Except.ok ((List.range 5).map (fun i => rec25 (20 + i)))
    ∧ recordsQ (some uAdminT1) 7 none none (some 4) (some 10) none s25 =
        Except.ok [] := by
  refine ⟨rfl, ?_, ?_, rfl, rfl, ?_, ?_, rfl, rfl, rfl, rfl, rfl⟩
  · simp only [pageNumOf]
    rw [if_neg (not_lt.mpr hp0)]
  · simp only [pageNumOf]
    rw [if_pos hppos]
  · simp only [limitNumOf]
    rw [if_neg (not_lt.mpr hl0)]
  · simp only [limitNumOf]
    rw [if_pos hlpos]

theorem C3_pagination_semantics_witness :
    pageNumOf none = 1
    ∧ pageNumOf (some 0) = 1
    ∧ pageNumOf (some 5) = 5
    ∧ limitNumOf 20 none = 20
    ∧ limitNumOf 25 none = 25
    ∧ limitNumOf 20 (some (-3)) = 20
    ∧ limitNumOf 20 (some 10) = 10
    ∧ recordsQ (some uAdminT1) 7 none none none none none s25 =
        Except.ok (((sortStage none (filterStage none (searchStage s25 7 none
          (baseMatch uAdminT1.tenantId 7 s25.records)))).drop
            ((pageNumOf none - 1) * limitNumOf 20 none).toNat).take
            (limitNumOf 20 none).toNat)
    ∧ activityLogsQ (some uAdminT1) none none s25 =
        Except.ok (((sortBy (fun a b => decide (b.createdAt ≤ a.createdAt))
          (s25.logs.filter (fun l => decide (l.tenantId = uAdminT1.tenantId)))).drop
            ((pageNumOf none - 1) * limitNumOf 25 none).toNat).take
            (limitNumOf 25 none).toNat)
    ∧ recordsQ (some uAdminT1) 7 none none (some 1) (some 10) none s25 =
        Except.ok ((List.range 10).map rec25)
    ∧ recordsQ (some uAdminT1) 7 none none (some 3) (some 10) none s25 =
        Except.ok ((List.range 5).map (fun i => rec25 (20 + i)))
    ∧ recordsQ (some uAdminT1) 7 none none (some 4) (some 10) none s25 =
        Except.ok [] :=
  C3_pagination_semantics uAdminT1 s25 7 none none none none none 0 5 (-3) 10 20
    (by decide) (by decide) (by decide) (by decide)

/-- Claim C4 confirmed: with a search term, the records query resolves the
target database definition and filters on exactly the type-"text" fields,
keeping a record iff at least one such field's value contains the term
case-insensitively (logical OR); with no text fields the stage is a no-op
that keeps every record and does not error; the stage sits between the
mandatory tenant match and the filter stage of the pipeline. -/
theorem C4_keyword_search (s : AppState) (databaseId : Nat) (term : String)
    (recs : List RecordDoc) (db : DatabaseDef)
    (hdb : s.databases.find? (fun d => decide (d.id = databaseId)) = some db) :
    (¬ textFieldNames db = [] →
      ∀ r, r ∈ searchStage s databaseId (some term) recs ↔
        r ∈ recs ∧ ∃ f ∈ db.fields, f.ftype = "text"
          ∧ valueMatchesRegexCI (mapGet r.values f.name) term = true)
    ∧ (textFieldNames db = [] → searchStage s databaseId (some term) recs = recs)
    ∧ (∀ n, n ∈ textFieldNames db ↔ ∃ f ∈ db.fields, f.ftype = "text" ∧ f.name = n)
    ∧ (∀ sv, valueMatchesRegexCI (some (Value.str sv)) term = ciContains sv term)
    ∧ (∀ u filt srt page limit,
        recordsQ (some u) databaseId filt srt page limit (some term) s =
          Except.ok (paginate page limit 20 (sortStage srt (filterStage filt
            (searchStage s databaseId (some term)
              (baseMatch u.tenantId databaseId s.records)))))) := by
  have htf : ∀ n, n ∈ textFieldNames db ↔
      ∃ f ∈ db.fields, f.ftype = "text" ∧ f.name = n := by
    intro n
    simp only [textFieldNames, List.mem_map, List.mem_filter, decide_eq_true_eq]
    constructor
    · rintro ⟨f, ⟨hf, hft⟩, hn⟩
      exact ⟨f, hf, hft, hn⟩
    · rintro ⟨f, hf, hft, hn⟩
      exact ⟨f, ⟨hf, hft⟩, hn⟩
  refine ⟨?_, ?_, htf, fun sv => rfl, fun u filt srt page limit => rfl⟩
  · intro hne r
    have hieq : (textFieldNames db).isEmpty = false := by
      cases htf2 : textFieldNames db with
      | nil => exact absurd htf2 hne
      | cons a l => rfl
    simp only [searchStage, hdb, hieq, Bool.false_eq_true, if_false, List.mem_filter,
      List.any_eq_true]
    constructor
    · rintro ⟨hr, fn, hfn, hmatch⟩
      obtain ⟨f, hf, hft, hfe⟩ := (htf fn).1 hfn
      exact ⟨hr, f, hf, hft, hfe ▸ hmatch⟩
    · rintro ⟨hr, f, hf, hft, hmatch⟩
      exact ⟨hr, f.name, (htf f.name).2 ⟨f, hf, hft, rfl⟩, hmatch⟩
  · intro he
    simp only [searchStage, hdb, he]
    rfl

theorem C4_keyword_search_witness :
    (¬ textFieldNames dbT2 = [] →
      ∀ r, r ∈ searchStage sSearchA 5 (some "hEl") [recHello, recZzz, recT2] ↔
        r ∈ [recHello, recZzz, recT2] ∧ ∃ f ∈ dbT2.fields, f.ftype = "text"
          ∧ valueMatchesRegexCI (mapGet r.values f.name) "hEl" = true)
    ∧ (textFieldNames dbT2 = [] →
        searchStage sSearchA 5 (some "hEl") [recHello, recZzz, recT2] = [recHello, recZzz, recT2])
    ∧ (∀ n, n ∈ textFieldNames dbT2 ↔ ∃ f ∈ dbT2.fields, f.ftype = "text" ∧ f.name = n)
    ∧ (∀ sv, valueMatchesRegexCI (some (Value.str sv)) "hEl" = ciContains sv "hEl")
    ∧ (∀ u filt srt page limit,
        recordsQ (some u) 5 filt srt page limit (some "hEl") sSearchA =
          Except.ok (paginate page limit 20 (sortStage srt (filterStage filt
            (searchStage sSearchA 5 (some "hEl")
              (baseMatch u.tenantId 5 sSearchA.records)))))) :=
  C4_keyword_search sSearchA 5 "hEl" [recHello, recZzz, recT2] dbT2 (by rfl)

/-- Claim C5 confirmed: createField fails Conflict whenever a field of the
database already bears the new name case-insensitively (e.g. "Email" then
"email"), and otherwise appends the field with a fresh subdocument id;
updateField fails Conflict whenever a field with a different id shares the
new name case-insensitively, and otherwise replaces the addressed field in
place. -/
theorem C5_field_name_uniqueness (s : AppState) (u : Principal) (databaseId fieldId : Nat)
    (input : FieldInput) (db : DatabaseDef)
    (hrole : u.role = Role.Admin)
    (hdb : s.databases.find? (fun d =>
        decide (d.id = databaseId ∧ d.tenantId = u.tenantId)) = some db) :
    ((∃ f ∈ db.fields, toLowerStr f.name = toLowerStr input.name) →
      (createField (some u) databaseId input true s).2 = Except.error Err.userInputConflict)
    ∧ ((∀ f ∈ db.fields, ¬ toLowerStr f.name = toLowerStr input.name) →
      (createField (some u) databaseId input true s).2 =
        Except.ok { db with fields := db.fields ++ [{ fid := s.nextFieldId, name := input.name, ftype := input.ftype, options := input.options }] })
    ∧ (∀ f0, db.fields.find? (fun f => decide (f.fid = fieldId)) = some f0 →
        ((∃ f ∈ db.fields, toLowerStr f.name = toLowerStr input.name ∧ ¬ f.fid = fieldId) →
          (updateField (some u) databaseId fieldId input true s).2 =
            Except.error Err.userInputConflict)
        ∧ ((∀ f ∈ db.fields, toLowerStr f.name = toLowerStr input.name → f.fid = fieldId) →
          (updateField (some u) databaseId fieldId input true s).2 =
            Except.ok { db with fields := setFieldIn fieldId input db.fields })) := by
  have hrole2 : ¬ (u.role ≠ Role.Admin) := fun h => h hrole
  refine ⟨?_, ?_, ?_⟩
  · rintro ⟨f, hf, hname⟩
    have hany : (db.fields.any (fun f =>
        decide (toLowerStr f.name = toLowerStr input.name))) = true :=
      List.any_eq_true.2 ⟨f, hf, decide_eq_true hname⟩
    simp only [createField, hdb]
    rw [if_neg hrole2, if_pos hany]
  · intro hnone
    have hany : ¬ (db.fields.any (fun f =>
        decide (toLowerStr f.name = toLowerStr input.name))) = true := by
      intro h
      obtain ⟨f, hf, hd⟩ := List.any_eq_true.1 h
      exact hnone f hf (of_decide_eq_true hd)
    simp only [createField, hdb]
    rw [if_neg hrole2, if_neg hany]
    rfl
  · intro f0 hf0
    constructor
    · rintro ⟨f, hf, hname, hne⟩
      have hany : (db.fields.any (fun f =>
          decide (toLowerStr f.name = toLowerStr input.name ∧ ¬ f.fid = fieldId))) = true :=
        List.any_eq_true.2 ⟨f, hf, decide_eq_true ⟨hname, hne⟩⟩
      simp only [updateField, hdb, hf0]
      rw [if_neg hrole2, if_pos hany]
    · intro hno
      have hany : ¬ (db.fields.any (fun f =>
          decide (toLowerStr f.name = toLowerStr input.name ∧ ¬ f.fid = fieldId))) = true := by
        intro h
        obtain ⟨f, hf, hd⟩ := List.any_eq_true.1 h
        obtain ⟨hname, hne⟩ := of_decide_eq_true hd
        exact hne (hno f hf hname)
      simp only [updateField, hdb, hf0]
      rw [if_neg hrole2, if_neg hany]
      rfl

theorem C5_field_name_uniqueness_witness :
    ((∃ f ∈ dbEmail.fields, toLowerStr f.name = toLowerStr ({ name := "email", ftype := "number", options := [] } : FieldInput).name) →
      (createField (some uAdminT1) 6 { name := "email", ftype := "number", options := [] } true sEmail).2 = Except.error Err.userInputConflict)
    ∧ ((∀ f ∈ dbEmail.fields, ¬ toLowerStr f.name = toLowerStr ({ name := "email", ftype := "number", options := [] } : FieldInput).name) →
      (createField (some uAdminT1) 6 { name := "email", ftype := "number", options := [] } true sEmail).2 =
        Except.ok { dbEmail with fields := dbEmail.fields ++ [{ fid := sEmail.nextFieldId, name := "email", ftype := "number", options := [] }] })
    ∧ (∀ f0, dbEmail.fields.find? (fun f => decide (f.fid = 1)) = some f0 →
        ((∃ f ∈ dbEmail.fields, toLowerStr f.name = toLowerStr ({ name := "email", ftype := "number", options := [] } : FieldInput).name ∧ ¬ f.fid = 1) →
          (updateField (some uAdminT1) 6 1 { name := "email", ftype := "number", options := [] } true sEmail).2 =
            Except.error Err.userInputConflict)
        ∧ ((∀ f ∈ dbEmail.fields, toLowerStr f.name = toLowerStr ({ name := "email", ftype := "number", options := [] } : FieldInput).name → f.fid = 1) →
          (updateField (some uAdminT1) 6 1 { name := "email", ftype := "number", options := [] } true sEmail).2 =
            Except.ok { dbEmail with fields := setFieldIn 1 { name := "email", ftype := "number", options := [] } dbEmail.fields })) :=
  C5_field_name_uniqueness sEmail uAdminT1 6 1
    { name := "email", ftype := "number", options := [] } dbEmail rfl (by rfl)

/-- Claim C6 confirmed: any authenticated tenant member, including a
Viewer, may run the read queries (records, databases, record, database,
activityLogs — database can only fail with its not-found error, never
Forbidden); every create/update/delete mutation invoked by a Viewer fails
Forbidden; an Editor passes the role gate of the record mutations (and
succeeds on a concrete state) but every Database/Field mutation invoked by
an Editor fails Forbidden. -/
theorem C6_role_matrix (s : AppState) (u : Principal) (id databaseId fieldId : Nat)
    (name : String) (values : VMap) (fi : FieldInput)
    (filt : Option (List (String × Value))) (srt : Option (String × String))
    (page limit : Option Int) (search : Option String) :
    (u.role = Role.Viewer →
      isOkE (databasesQ (some u) s) = true
      ∧ isOkE (recordsQ (some u) databaseId filt srt page limit search s) = true
      ∧ isOkE (recordQ (some u) id s) = true
      ∧ isOkE (activityLogsQ (some u) limit page s) = true
      ∧ (∀ e, databaseQ (some u) id s = Except.error e → e = Err.errorNotFound)
      ∧ (createDatabase (some u) name true s).2 = Except.error Err.forbiddenRole
      ∧ (updateDatabase (some u) id name true s).2 = Except.error Err.forbiddenRole
      ∧ (deleteDatabase (some u) id true s).2 = Except.error Err.forbiddenRole
      ∧ (createField (some u) databaseId fi true s).2 = Except.error Err.forbiddenRole
      ∧ (updateField (some u) databaseId fieldId fi true s).2 = Except.error Err.forbiddenRole
      ∧ (deleteField (some u) databaseId fieldId true s).2 = Except.error Err.forbiddenRole
      ∧ (createRecord (some u) databaseId values true s).2 = Except.error Err.forbiddenRole
      ∧ (updateRecord (some u) id values true s).2 = Except.error Err.forbiddenRole
      ∧ (deleteRecord (some u) id true s).2 = Except.error Err.forbiddenRole)
    ∧ (u.role = Role.Editor →
      (createDatabase (some u) name true s).2 = Except.error Err.forbiddenRole
      ∧ (updateDatabase (some u) id name true s).2 = Except.error Err.forbiddenRole
      ∧ (deleteDatabase (some u) id true s).2 = Except.error Err.forbiddenRole
      ∧ (createField (some u) databaseId fi true s).2 = Except.error Err.forbiddenRole
      ∧ (updateField (some u) databaseId fieldId fi true s).2 = Except.error Err.forbiddenRole
      ∧ (deleteField (some u) databaseId fieldId true s).2 = Except.error Err.forbiddenRole
      ∧ ¬ ((createRecord (some u) databaseId values true s).2 = Except.error Err.forbiddenRole)
      ∧ ¬ ((updateRecord (some u) id values true s).2 = Except.error Err.forbiddenRole)
      ∧ ¬ ((deleteRecord (some u) id true s).2 = Except.error Err.forbiddenRole))
    ∧ isOkE ((createRecord (some uEditorT1) 4 [("a", Value.str "w")] true sRec).2) = true
    ∧ isOkE ((updateRecord (some uEditorT1) 20 [("a", Value.str "w")] true sRec).2) = true
    ∧ isOkE ((deleteRecord (some uEditorT1) 20 true sRec).2) = true := by
  refine ⟨?_, ?_, rfl, rfl, rfl⟩
  · intro hrole
    have hva : u.role ≠ Role.Admin := by rw [hrole]; decide
    have hvr : ¬ (u.role = Role.Editor ∨ u.role = Role.Admin) := by rw [hrole]; decide
    refine ⟨rfl, rfl, rfl, rfl, ?_, ?_, ?_, ?_, ?_, ?_, ?_, ?_, ?_, ?_⟩
    · intro e he
      simp only [databaseQ] at he
      revert he
      cases hf : s.databases.find? (fun d =>
          decide (d.id = id ∧ d.tenantId = u.tenantId ∧ d.isDeleted = false)) with
      | none =>
        intro he
        injection he with h
        exact h.symm
      | some d =>
        intro he
        exact Except.noConfusion he
    · simp only [createDatabase]
      rw [if_pos hva]
    · simp only [updateDatabase]
      rw [if_pos hva]
    · simp only [deleteDatabase]
      rw [if_pos hva]
    · simp only [createField]
      rw [if_pos hva]
    · simp only [updateField]
      rw [if_pos hva]
    · simp only [deleteField]
      rw [if_pos hva]
    · simp only [createRecord]
      rw [if_pos hvr]
    · simp only [updateRecord]
      rw [if_pos hvr]
    · simp only [deleteRecord]
      rw [if_pos hvr]
  · intro hrole
    have hva : u.role ≠ Role.Admin := by rw [hrole]; decide
    have hvr : ¬ ¬ (u.role = Role.Editor ∨ u.role = Role.Admin) :=
      not_not_intro (Or.inl hrole)
    refine ⟨?_, ?_, ?_, ?_, ?_, ?_, ?_, ?_, ?_⟩
    · simp only [createDatabase]
      rw [if_pos hva]
    · simp only [updateDatabase]
      rw [if_pos hva]
    · simp only [deleteDatabase]
      rw [if_pos hva]
    · simp only [createField]
      rw [if_pos hva]
    · simp only [updateField]
      rw [if_pos hva]
    · simp only [deleteField]
      rw [if_pos hva]
    · intro hcontra
      simp only [createRecord] at hcontra
      rw [if_neg hvr] at hcontra
      cases hf : s.databases.find? (fun d =>
          decide (d.id = databaseId ∧ d.tenantId = u.tenantId)) with
      | none =>
        rw [hf] at hcontra
        simp at hcontra
      | some db =>
        rw [hf] at hcontra
        simp [logCreate] at hcontra
    · intro hcontra
      simp only [updateRecord] at hcontra
      rw [if_neg hvr] at hcontra
      cases hf : s.records.find? (fun r => decide (r.id = id ∧ r.tenantId = u.tenantId)) with
      | none =>
        rw [hf] at hcontra
        simp at hcontra
      | some r =>
        rw [hf] at hcontra
        simp [logCreate] at hcontra
    · intro hcontra
      simp only [deleteRecord] at hcontra
      rw [if_neg hvr] at hcontra
      cases hf : s.records.find? (fun r => decide (r.id = id ∧ r.tenantId = u.tenantId)) with
      | none =>
        rw [hf] at hcontra
        simp at hcontra
      | some r =>
        rw [hf] at hcontra
        simp [logCreate] at hcontra

theorem C6_role_matrix_witness :
    (isOkE (databasesQ (some uViewerT1) sRec) = true
      ∧ isOkE (recordsQ (some uViewerT1) 4 none none none none none sRec) = true
      ∧ isOkE (recordQ (some uViewerT1) 20 sRec) = true
      ∧ isOkE (activityLogsQ (some uViewerT1) none none sRec) = true
      ∧ (∀ e, databaseQ (some uViewerT1) 9 sRec = Except.error e → e = Err.errorNotFound)
      ∧ (createDatabase (some uViewerT1) "X" true sRec).2 = Except.error Err.forbiddenRole
      ∧ (updateDatabase (some uViewerT1) 9 "X" true sRec).2 = Except.error Err.forbiddenRole
      ∧ (deleteDatabase (some uViewerT1) 9 true sRec).2 = Except.error Err.forbiddenRole
      ∧ (createField (some uViewerT1) 4 { name := "b", ftype := "text", options := [] } true sRec).2 = Except.error Err.forbiddenRole
      ∧ (updateField (some uViewerT1) 4 1 { name := "b", ftype := "text", options := [] } true sRec).2 = Except.error Err.forbiddenRole
      ∧ (deleteField (some uViewerT1) 4 1 true sRec).2 = Except.error Err.forbiddenRole
      ∧ (createRecord (some uViewerT1) 4 [] true sRec).2 = Except.error Err.forbiddenRole
      ∧ (updateRecord (some uViewerT1) 9 [] true sRec).2 = Except.error Err.forbiddenRole
      ∧ (deleteRecord (some uViewerT1) 9 true sRec).2 = Except.error Err.forbiddenRole)
    ∧ ((createDatabase (some uEditorT1) "X" true sRec).2 = Except.error Err.forbiddenRole
      ∧ (updateDatabase (some uEditorT1) 9 "X" true sRec).2 = Except.error Err.forbiddenRole
      ∧ (deleteDatabase (some uEditorT1) 9 true sRec).2 = Except.error Err.forbiddenRole
      ∧ (createField (some uEditorT1) 4 { name := "b", ftype := "text", options := [] } true sRec).2 = Except.error Err.forbiddenRole
      ∧ (updateField (some uEditorT1) 4 1 { name := "b", ftype := "text", options := [] } true sRec).2 = Except.error Err.forbiddenRole
      ∧ (deleteField (some uEditorT1) 4 1 true sRec).2 = Except.error Err.forbiddenRole
      ∧ ¬ ((createRecord (some uEditorT1) 4 [] true sRec).2 = Except.error Err.forbiddenRole)
      ∧ ¬ ((updateRecord (some uEditorT1) 9 [] true sRec).2 = Except.error Err.forbiddenRole)
      ∧ ¬ ((deleteRecord (some uEditorT1) 9 true sRec).2 = Except.error Err.forbiddenRole)) :=
  ⟨(C6_role_matrix sRec uViewerT1 9 4 1 "X" [] { name := "b", ftype := "text", options := [] }
      none none none none none).1 rfl,
    (C6_role_matrix sRec uEditorT1 9 4 1 "X" [] { name := "b", ftype := "text", options := [] }
      none none none none none).2.1 rfl⟩

/-- Claim C1 confirmed: every lookup is filtered by the caller's tenantId.
For a principal of one tenant and any Database or Record owned by a
different tenant, the single-entity read and the update/delete mutations
(given the role the operation requires) end in the operation's not-found
outcome — never the foreign data (`record` returns its null) — and the
list queries (databases, records, activityLogs) only ever return entities
of the caller's tenant. -/
theorem C1_tenant_isolation (s : AppState) (u : Principal) (hWF : WF s) :
    (∀ d ∈ s.databases, ¬ d.tenantId = u.tenantId →
        databaseQ (some u) d.id s = Except.error Err.errorNotFound
      ∧ (u.role = Role.Admin →
          (updateDatabase (some u) d.id "NewName" true s).2 = Except.error Err.errorNotFound
        ∧ (deleteDatabase (some u) d.id true s).2 = Except.error Err.errorNotFound))
    ∧ (∀ r ∈ s.records, ¬ r.tenantId = u.tenantId →
        recordQ (some u) r.id s = Except.ok none
      ∧ (u.role = Role.Editor ∨ u.role = Role.Admin →
          (updateRecord (some u) r.id [] true s).2 = Except.error Err.userInputNotFound
        ∧ (deleteRecord (some u) r.id true s).2 = Except.error Err.userInputNotFound))
    ∧ (∀ L, databasesQ (some u) s = Except.ok L → ∀ d ∈ L, d.tenantId = u.tenantId)
    ∧ (∀ databaseId filt srt page limit search L,
        recordsQ (some u) databaseId filt srt page limit search s = Except.ok L →
        ∀ r ∈ L, r.tenantId = u.tenantId)
    ∧ (∀ limit page L, activityLogsQ (some u) limit page s = Except.ok L →
        ∀ l ∈ L, l.tenantId = u.tenantId) := by
  refine ⟨?_, ?_, ?_, ?_, ?_⟩
  · intro d hd hne
    have h9 : s.databases.find? (fun d2 =>
        decide (d2.id = d.id ∧ d2.tenantId = u.tenantId ∧ d2.isDeleted = false)) = none :=
      find?_eq_none_of_nodup s.databases (fun x => x.id) hWF.1 d hd
        (fun x => x.id = d.id ∧ x.tenantId = u.tenantId ∧ x.isDeleted = false)
        (fun hq => hne hq.2.1) (fun y hy => hy.1)
    have h10 : s.databases.find? (fun d2 =>
        decide (d2.id = d.id ∧ d2.tenantId = u.tenantId)) = none :=
      find?_eq_none_of_nodup s.databases (fun x => x.id) hWF.1 d hd
        (fun x => x.id = d.id ∧ x.tenantId = u.tenantId)
        (fun hq => hne hq.2) (fun y hy => hy.1)
    refine ⟨?_, ?_⟩
    · simp only [databaseQ]
      rw [h9]
    · intro hrole
      have hrole2 : ¬ (u.role ≠ Role.Admin) := fun h => h hrole
      have hname : ¬ strTrim "NewName" = "" := by decide
      constructor
      · simp only [updateDatabase]
        rw [if_neg hrole2, if_neg hname, h10]
      · simp only [deleteDatabase]
        rw [if_neg hrole2, h10]
  · intro r hr hne
    have h11 : s.records.find? (fun r2 =>
        decide (r2.id = r.id ∧ r2.tenantId = u.tenantId)) = none :=
      find?_eq_none_of_nodup s.records (fun x => x.id) hWF.2 r hr
        (fun x => x.id = r.id ∧ x.tenantId = u.tenantId)
        (fun hq => hne hq.2) (fun y hy => hy.1)
    refine ⟨?_, ?_⟩
    · simp only [recordQ]
      rw [h11]
    · intro hrole
      have hrole2 : ¬ ¬ (u.role = Role.Editor ∨ u.role = Role.Admin) := not_not_intro hrole
      constructor
      · simp only [updateRecord]
        rw [if_neg hrole2, h11]
      · simp only [deleteRecord]
        rw [if_neg hrole2, h11]
  · intro L hL d hd
    simp only [databasesQ] at hL
    injection hL with h
    rw [← h] at hd
    have hmem := List.mem_filter.1 hd
    simp only [decide_eq_true_eq] at hmem
    exact hmem.2.1
  · intro databaseId filt srt page limit search L hL r hr
    simp only [recordsQ] at hL
    injection hL with h
    rw [← h] at hr
    have h1 := mem_paginate page limit 20 _ r hr
    have h2 := mem_sortStage srt r _ h1
    have h3 := mem_filterStage filt r _ h2
    have h4 := mem_searchStage s databaseId search r _ h3
    exact (mem_baseMatch u.tenantId databaseId r s.records h4).2.2.1
  · intro limit page L hL l hl
    simp only [activityLogsQ] at hL
    injection hL with h
    rw [← h] at hl
    have h1 := mem_paginate page limit 25 _ l hl
    have h2 := (mem_sortBy _ l _).1 h1
    have h3 := List.mem_filter.1 h2
    simpa using h3.2

theorem C1_tenant_isolation_witness :
    (∀ d ∈ sSearchA.databases, ¬ d.tenantId = uAdminT1.tenantId →
        databaseQ (some uAdminT1) d.id sSearchA = Except.error Err.errorNotFound
      ∧ (uAdminT1.role = Role.Admin →
          (updateDatabase (some uAdminT1) d.id "NewName" true sSearchA).2 =
            Except.error Err.errorNotFound
        ∧ (deleteDatabase (some uAdminT1) d.id true sSearchA).2 =
            Except.error Err.errorNotFound))
    ∧ (∀ r ∈ sSearchA.records, ¬ r.tenantId = uAdminT1.tenantId →
        recordQ (some uAdminT1) r.id sSearchA = Except.ok none
      ∧ (uAdminT1.role = Role.Editor ∨ uAdminT1.role = Role.Admin →
          (updateRecord (some uAdminT1) r.id [] true sSearchA).2 =
            Except.error Err.userInputNotFound
        ∧ (deleteRecord (some uAdminT1) r.id true sSearchA).2 =
            Except.error Err.userInputNotFound))
    ∧ (∀ L, databasesQ (some uAdminT1) sSearchA = Except.ok L →
        ∀ d ∈ L, d.tenantId = uAdminT1.tenantId)
    ∧ (∀ databaseId filt srt page limit search L,
        recordsQ (some uAdminT1) databaseId filt srt page limit search sSearchA = Except.ok L →
        ∀ r ∈ L, r.tenantId = uAdminT1.tenantId)
    ∧ (∀ limit page L, activityLogsQ (some uAdminT1) limit page sSearchA = Except.ok L →
        ∀ l ∈ L, l.tenantId = uAdminT1.tenantId) :=
  C1_tenant_isolation sSearchA uAdminT1 (by constructor <;> decide)

end NotionDB
